import Mathlib

/-!
Shallow embedding of the timesheet application in `src/app.py` (Flask +
SQLAlchemy, single file).  The parts relevant to the claims are:

* the data model (`Person`, `Team`, `Project`, `Hour`, `User` tables,
  lines 33-69 of `app.py`);
* the `login` handler (lines 99-107);
* the `dashboard` POST handler with its four creation branches wrapped in a
  single try/commit/except-rollback block (lines 115-174);
* the row-building logic of the `/export` CSV handler (lines 187-210).

Modelling conventions:

* Python `str` values are embedded as `List Char` (called `Str` below), so
  that every operation (strip, split, int parsing, comparison) is a plain
  structural recursion that the kernel can evaluate.
* Python `int` is `Int`.  `int(s)` is embedded as `pyInt?` returning
  `Option Int` (Python raises `ValueError` on failure); the embedding keeps
  an optional leading sign followed by decimal digits, after stripping
  surrounding whitespace, which is the behaviour exercised by the program.
* The `Hour.worked_hours` column holds `round((end - start)/60.0, 2)`, a
  Python float.  On the program's domain (an integer number of minutes
  divided by 60 and rounded half-to-even to 2 decimal digits, with `HH:MM`
  inputs well below any double-precision boundary) that float is exactly the
  rational `m / 100` for an integer `m`, and Python's `round(x, 2)` agrees
  with exact rational half-even rounding, because `k/60` is never exactly
  halfway between two hundredths.  The embedding therefore stores the
  integer `m` of hundredths of an hour (`round2c`), and `round2q` states the
  same rounding on `ℚ` for the specification-level formula.
* Exceptions are embedded as `Except Str`: the try-block of `dashboard`
  either produces a fully committed store (`Except.ok`) or raises
  (`Except.error`), in which case `db.session.rollback()` leaves the store
  untouched and `flash(str(e))` surfaces the message.  Messages raised
  explicitly by the source are reproduced verbatim; messages produced by the
  Python runtime (KeyError / ValueError from `int`, unpacking) are stood in
  for by fixed descriptive strings.
* `check_password_hash` is an opaque predicate, taken as a parameter `chk`
  of the login model.
-/

namespace PontoApp

/-- Python strings, embedded as lists of characters. -/
abbrev Str := List Char

/-- `str.strip()`: drop leading and trailing whitespace. -/
def pyStrip (s : Str) : Str :=
  ((s.dropWhile Char.isWhitespace).reverse.dropWhile Char.isWhitespace).reverse

/-- `s.split(sep)` for a single-character separator, as in Python:
`''.split(':') = ['']`, `'a:b'.split(':') = ['a','b']`. -/
def splitChar (sep : Char) : Str → List Str
  | [] => [[]]
  | c :: cs =>
    if c = sep then [] :: splitChar sep cs
    else
      match splitChar sep cs with
      | r :: rs => (c :: r) :: rs
      | [] => [[c]]

/-- Value of a non-empty all-digit string, `none` otherwise. -/
def digitsVal (s : Str) : Option Nat :=
  if s ≠ [] ∧ s.all Char.isDigit then
    some (s.foldl (fun a c => a * 10 + (c.toNat - 48)) 0)
  else none

/-- Python `int(s)`: strip whitespace, optional sign, decimal digits;
raises `ValueError` (here: `none`) otherwise. -/
def pyInt? (s : Str) : Option Int :=
  match pyStrip s with
  | '+' :: ds => (digitsVal ds).map (fun n => (n : Int))
  | '-' :: ds => (digitsVal ds).map (fun n => -(n : Int))
  | ds => (digitsVal ds).map (fun n => (n : Int))

/-- Decimal representation of a natural number, as Python `str` prints it. -/
def natToStr (n : Nat) : Str := Nat.toDigits 10 n

/-- Decimal representation of an integer, as Python `str` prints it. -/
def intToStr (n : Int) : Str :=
  if n < 0 then '-' :: natToStr n.natAbs else natToStr n.natAbs

/-- Round-half-even of the rational `a / b` (for `b > 0`), on integers.
Lean's `Int` division and remainder are Euclidean, which for `b > 0`
coincide with floor division and a remainder in `[0, b)`. -/
def rheDiv (a b : Int) : Int :=
  let q := a / b
  let r := a % b
  if 2 * r < b then q
  else if b < 2 * r then q + 1
  else if q % 2 = 0 then q else q + 1

/-- The worked-hours column value for `k` worked minutes, stored as an
integer number of hundredths of an hour: `round(k/60, 2)` scaled by 100. -/
def round2c (k : Int) : Int := rheDiv (100 * k) 60

/-- Round-half-even to an integer, on `ℚ` (Python `round(x)` semantics). -/
def rheQ (x : ℚ) : ℤ :=
  if x - ⌊x⌋ < 1 / 2 then ⌊x⌋
  else if (1 : ℚ) / 2 < x - ⌊x⌋ then ⌊x⌋ + 1
  else if ⌊x⌋ % 2 = 0 then ⌊x⌋ else ⌊x⌋ + 1

/-- Python `round(x, 2)` on `ℚ`: the specification-level 2-decimal rounding. -/
def round2q (x : ℚ) : ℚ := (rheQ (100 * x) : ℚ) / 100

/-- `f'{x:.2f}'` for the exact value `c / 100`: sign, integer part, dot,
two-digit fractional part. -/
def format2 (c : Int) : Str :=
  let m := c.natAbs
  let frac := if m % 100 < 10 then '0' :: natToStr (m % 100) else natToStr (m % 100)
  (if c < 0 then ['-'] else []) ++ natToStr (m / 100) ++ ['.'] ++ frac

/-- `to_minutes` from `app.py` (lines 152-154):
`hh, mm = map(int, hhmm.split(':')); return hh*60 + mm`.
Exactly two `:`-separated fields, each parsed by `int`; any other shape
raises `ValueError` (here: `none`). -/
def to_minutes (hhmm : Str) : Option Int :=
  match splitChar ':' hhmm with
  | [h, m] =>
    match pyInt? h, pyInt? m with
    | some hh, some mm => some (hh * 60 + mm)
    | _, _ => none
  | _ => none

/-- A well-formed 24-hour `HH:MM` time: two integer fields with
`0 ≤ hh < 24` and `0 ≤ mm < 60`. -/
def validHHMM (t : Str) : Bool :=
  match splitChar ':' t with
  | [h, m] =>
    match pyInt? h, pyInt? m with
    | some hh, some mm =>
      decide (0 ≤ hh) && decide (hh < 24) && decide (0 ≤ mm) && decide (mm < 60)
    | _, _ => false
  | _ => false

/-- Lexicographic comparison of strings by character code, the order SQLite
uses for `ORDER BY` on a text column (BINARY collation on ASCII data). -/
def strLt : Str → Str → Bool
  | [], [] => false
  | [], _ :: _ => true
  | _ :: _, [] => false
  | a :: as, b :: bs =>
    if a < b then true
    else if b < a then false
    else strLt as bs

/-- The `user` table (lines 33-43); the password is stored only as a hash. -/
structure UserRec where
  id : Int
  username : Str
  password_hash : Str
  role : Str
deriving DecidableEq

/-- The `person` table (lines 45-48). -/
structure Person where
  id : Int
  name : Str
  classification : Str
deriving DecidableEq

/-- The `team` table (lines 50-53). -/
structure Team where
  id : Int
  code : Str
  description : Str
deriving DecidableEq

/-- The `project` table (lines 55-59); `number` carries a UNIQUE constraint. -/
structure Project where
  id : Int
  number : Int
  client : Str
  description : Str
deriving DecidableEq

/-- The `hour` table (lines 61-69).  `worked_hours` is stored in hundredths
of an hour (see the file header for why this is exact). -/
structure Hour where
  id : Int
  date : Str
  person_id : Int
  team_id : Int
  project_id : Int
  entry : Str
  exit : Str
  worked_hours : Int
deriving DecidableEq

/-- The whole SQLite database.  Rows are kept in insertion order; primary
keys are generated as `length + 1`, which matches SQLite rowid assignment in
this append-only application. -/
structure Store where
  users : List UserRec
  people : List Person
  teams : List Team
  projects : List Project
  hours : List Hour
deriving DecidableEq

def emptyStore : Store :=
  { users := [], people := [], teams := [], projects := [], hours := [] }

/-- A request form: ordered field/value pairs (`request.form`). -/
abbrev Form := List (Str × Str)

/-- `request.form[k]` / `request.form.get(k)`: first value for the key. -/
def getf (form : Form) (k : Str) : Option Str :=
  (form.find? (fun p => p.1 == k)).map (fun p => p.2)

/-- The `kind == 'person'` branch (lines 123-127): strip name and
classification, require a non-empty name, insert.  The classification is
stored as submitted — the source has no enum check on it. -/
def createPerson (s : Store) (form : Form) : Except Str Store :=
  match getf form ("name").data, getf form ("class").data with
  | some nameRaw, some clsRaw =>
    if pyStrip nameRaw = [] then .error ("Name required").data
    else .ok { s with people := s.people ++
      [{ id := (s.people.length : Int) + 1, name := pyStrip nameRaw,
         classification := pyStrip clsRaw }] }
  | _, _ => .error ("Bad Request: missing form field").data

/-- The `kind == 'team'` branch (lines 129-133). -/
def createTeam (s : Store) (form : Form) : Except Str Store :=
  match getf form ("code").data, getf form ("desc").data with
  | some codeRaw, some descRaw =>
    if pyStrip codeRaw = [] ∨ pyStrip descRaw = [] then
      .error ("Code and description required").data
    else .ok { s with teams := s.teams ++
      [{ id := (s.teams.length : Int) + 1, code := pyStrip codeRaw,
         description := pyStrip descRaw }] }
  | _, _ => .error ("Bad Request: missing form field").data

/-- The `kind == 'project'` branch (lines 135-141) plus the UNIQUE
constraint on `project.number` enforced by `db.session.commit()`: parse the
number, range-check it, strip client and description (the source does not
check them for emptiness), insert unless the number already exists. -/
def createProject (s : Store) (form : Form) : Except Str Store :=
  match getf form ("number").data with
  | some numStr =>
    match pyInt? numStr with
    | some number =>
      if number < 10000 ∨ 99999 < number then
        .error ("Project number must be 5 digits").data
      else
        match getf form ("client").data, getf form ("desc").data with
        | some clientRaw, some descRaw =>
          if s.projects.any (fun p => p.number == number) then
            .error ("UNIQUE constraint failed: project.number").data
          else .ok { s with projects := s.projects ++
            [{ id := (s.projects.length : Int) + 1, number := number,
               client := pyStrip clientRaw, description := pyStrip descRaw }] }
        | _, _ => .error ("Bad Request: missing form field").data
    | none => .error ("invalid literal for int() with base 10").data
  | none => .error ("Bad Request: missing form field").data

/-- The `kind == 'hour'` branch (lines 143-165): the date string is taken
as-is (no parsing or validation), the three reference ids are parsed by
`int`, entry and exit go through `to_minutes`, exit must be strictly after
entry, and the worked-hours value is `round((end - start)/60, 2)`. -/
def createHour (s : Store) (form : Form) : Except Str Store :=
  match getf form ("date").data, getf form ("person_id").data,
        getf form ("team_id").data, getf form ("project_id").data,
        getf form ("entry").data, getf form ("exit").data with
  | some date, some pidS, some tidS, some prS, some entryS, some exitS =>
    match pyInt? pidS, pyInt? tidS, pyInt? prS with
    | some pid, some tid, some prid =>
      match to_minutes entryS, to_minutes exitS with
      | some start, some stop =>
        if stop ≤ start then .error ("Exit must be after entry").data
        else .ok { s with hours := s.hours ++
          [{ id := (s.hours.length : Int) + 1, date := date,
             person_id := pid, team_id := tid, project_id := prid,
             entry := entryS, exit := exitS,
             worked_hours := round2c (stop - start) }] }
      | _, _ => .error ("invalid literal in time field").data
    | _, _, _ => .error ("invalid literal for int() with base 10").data
  | _, _, _, _, _, _ => .error ("Bad Request: missing form field").data

/-- The try-block of the dashboard POST handler (lines 119-169): dispatch on
`kind`; an unknown or missing kind raises `ValueError('Unknown form
submission')`. -/
def dashboardPost (s : Store) (form : Form) : Except Str Store :=
  match getf form ("kind").data with
  | some k =>
    if k = ("person").data then createPerson s form
    else if k = ("team").data then createTeam s form
    else if k = ("project").data then createProject s form
    else if k = ("hour").data then createHour s form
    else .error ("Unknown form submission").data
  | none => .error ("Unknown form submission").data

/-- The whole mutating request (lines 119-174): on success the transaction
is committed; on any exception `db.session.rollback()` restores the store
and `flash(str(e))` records the message for the next render. -/
def handlePost (s : Store) (form : Form) : Store × Option Str :=
  match dashboardPost s form with
  | .ok s2 => (s2, none)
  | .error e => (s, some e)

/-- `getattr(Person.query.get(h.person_id), 'name', h.person_id)`
(line 199): the person's name, or the raw id if no such person exists. -/
def resolvePersonName (s : Store) (pid : Int) : Str :=
  match s.people.find? (fun p => p.id == pid) with
  | some p => p.name
  | none => intToStr pid

/-- `getattr(Team.query.get(h.team_id), 'code', h.team_id)` (line 200). -/
def resolveTeamCode (s : Store) (tid : Int) : Str :=
  match s.teams.find? (fun t => t.id == tid) with
  | some t => t.code
  | none => intToStr tid

/-- `getattr(Project.query.get(h.project_id), 'number', h.project_id)`
(line 201): the project number, or the raw id; both print as integers. -/
def resolveProjectNumber (s : Store) (prid : Int) : Str :=
  match s.projects.find? (fun p => p.id == prid) with
  | some p => intToStr p.number
  | none => intToStr prid

/-- One CSV body row (lines 197-203). -/
def hourRow (s : Store) (h : Hour) : List Str :=
  [ h.date,
    resolvePersonName s h.person_id,
    resolveTeamCode s h.team_id,
    resolveProjectNumber s h.project_id,
    h.entry, h.exit, format2 h.worked_hours ]

/-- The export ordering `Hour.date.asc(), Hour.id.asc()` (line 196). -/
def hourLeB (a b : Hour) : Bool :=
  strLt a.date b.date || (a.date == b.date && decide (a.id ≤ b.id))

def insertHour (h : Hour) : List Hour → List Hour
  | [] => [h]
  | x :: xs => if hourLeB h x then h :: x :: xs else x :: insertHour h xs

/-- `Hour.query.order_by(Hour.date.asc(), Hour.id.asc()).all()` (line 196):
a sort of the stored rows by (date, id). -/
def sortHours : List Hour → List Hour
  | [] => []
  | x :: xs => insertHour x (sortHours xs)

/-- The CSV header row (line 194). -/
def exportHeader : List Str :=
  [ ("Date").data, ("Person").data, ("Team").data, ("Project").data,
    ("Entry").data, ("Exit").data, ("WorkedHours").data ]

/-- The rows handed to `csv.writer` by `export_csv` (lines 194-203): the
fixed header, then one row per stored `Hour` in (date asc, id asc) order. -/
def export_rows (s : Store) : List (List Str) :=
  exportHeader :: (sortHours s.hours).map (hourRow s)

/-- The login response visible to the client. -/
inductive LoginResponse where
  | redirectDashboard : LoginResponse
  | loginPageWithFlash : Str → LoginResponse
deriving DecidableEq

/-- Result of a login POST: the rendered response and the session's user
(`none` = anonymous). -/
structure LoginOutcome where
  response : LoginResponse
  sessionUser : Option Int
deriving DecidableEq

/-- The login POST handler (lines 101-107).  `chk hash raw` stands for
`check_password_hash(hash, raw)`.  The username is stripped, looked up, and
on a hash match the session becomes authenticated; otherwise the login page
is re-rendered with the single message `Invalid credentials`. -/
def login (chk : Str → Str → Bool) (s : Store) (username password : Str) :
    LoginOutcome :=
  match s.users.find? (fun u => u.username == pyStrip username) with
  | some u =>
    if chk u.password_hash password then
      { response := .redirectDashboard, sessionUser := some u.id }
    else
      { response := .loginPageWithFlash ("Invalid credentials").data,
        sessionUser := none }
  | none =>
    { response := .loginPageWithFlash ("Invalid credentials").data,
      sessionUser := none }

/-- Project-number uniqueness: the `UNIQUE` column invariant on
`project.number`. -/
def projectNumbersUnique (s : Store) : Prop :=
  (s.projects.map (fun p => p.number)).Nodup

/-! Concrete fixtures used by closed theorems and witnesses. -/

/-- A valid time-entry form (the concrete scenario of the specification:
2024-03-01, 08:00 to 16:30). -/
def hourOkForm : Form :=
  [ (("kind").data, ("hour").data), (("date").data, ("2024-03-01").data),
    (("person_id").data, ("1").data), (("team_id").data, ("1").data),
    (("project_id").data, ("1").data), (("entry").data, ("08:00").data),
    (("exit").data, ("16:30").data) ]

/-- A time-entry form whose exit precedes its entry. -/
def hourBackwardsForm : Form :=
  [ (("kind").data, ("hour").data), (("date").data, ("2024-03-01").data),
    (("person_id").data, ("1").data), (("team_id").data, ("1").data),
    (("project_id").data, ("1").data), (("entry").data, ("17:00").data),
    (("exit").data, ("09:00").data) ]

/-- A time-entry form with an unparseable date, an out-of-range entry time
and an out-of-range exit time. -/
def hourBadFieldsForm : Form :=
  [ (("kind").data, ("hour").data), (("date").data, ("not-a-date").data),
    (("person_id").data, ("1").data), (("team_id").data, ("1").data),
    (("project_id").data, ("1").data), (("entry").data, ("25:61").data),
    (("exit").data, ("99:99").data) ]

/-- A time-entry form whose entry time has no `:` separator. -/
def hourNoColonForm : Form :=
  [ (("kind").data, ("hour").data), (("date").data, ("2024-03-01").data),
    (("person_id").data, ("1").data), (("team_id").data, ("1").data),
    (("project_id").data, ("1").data), (("entry").data, ("0800").data),
    (("exit").data, ("17:00").data) ]

/-- A person form with a classification outside {Direct, Indirect} (and
outside the Direto/Indireto values offered by the HTML form). -/
def personOddClassForm : Form :=
  [ (("kind").data, ("person").data), (("name").data, ("Ana").data),
    (("class").data, ("Gerente").data) ]

/-- A well-formed person form. -/
def personOkForm : Form :=
  [ (("kind").data, ("person").data), (("name").data, ("Ana").data),
    (("class").data, ("Direto").data) ]

/-- A project form with an in-range number but empty client and
whitespace-only description. -/
def projEmptyClientForm : Form :=
  [ (("kind").data, ("project").data), (("number").data, ("12345").data),
    (("client").data, ("").data), (("desc").data, (" ").data) ]

/-- A well-formed project form, number 12345. -/
def projOkForm : Form :=
  [ (("kind").data, ("project").data), (("number").data, ("12345").data),
    (("client").data, ("Acme").data), (("desc").data, ("Widgets").data) ]

/-- A second project form with the same number 12345. -/
def projDupForm : Form :=
  [ (("kind").data, ("project").data), (("number").data, ("12345").data),
    (("client").data, ("Other").data), (("desc").data, ("Again").data) ]

/-- A store holding the specification's CSV round-trip scenario: one person,
one team, one project, and entries dated 2024-01-02 (08:00-17:00, inserted
first) and 2024-01-01 (09:00-12:30, inserted second). -/
def scenarioStore : Store :=
  { users := []
    people := [{ id := 1, name := ("Ana").data, classification := ("Direto").data }]
    teams := [{ id := 1, code := ("T1").data, description := ("Line 1").data }]
    projects := [{ id := 1, number := 12345, client := ("Acme").data,
                   description := ("Widgets").data }]
    hours :=
      [ { id := 1, date := ("2024-01-02").data, person_id := 1, team_id := 1,
          project_id := 1, entry := ("08:00").data, exit := ("17:00").data,
          worked_hours := round2c 540 },
        { id := 2, date := ("2024-01-01").data, person_id := 1, team_id := 1,
          project_id := 1, entry := ("09:00").data, exit := ("12:30").data,
          worked_hours := round2c 210 } ] }

/-- A time entry whose person/team/project ids (99, 88, 77) exist nowhere. -/
def danglingHour : Hour :=
  { id := 1, date := ("2024-01-01").data, person_id := 99, team_id := 88,
    project_id := 77, entry := ("08:00").data, exit := ("09:00").data,
    worked_hours := round2c 60 }

/-- A store whose only time entry has dangling references. -/
def danglingStore : Store :=
  { users := [], people := [], teams := [], projects := [],
    hours := [danglingHour] }

/-- A store with one supervisor credential. -/
def adminStore : Store :=
  { users := [{ id := 1, username := ("admin").data,
                password_hash := ("secret#hashed").data,
                role := ("supervisor").data }],
    people := [], teams := [], projects := [], hours := [] }

/-- A stand-in for `check_password_hash`, used only to instantiate the login
theorem at a concrete input. -/
def demoCheck (hash raw : Str) : Bool := hash == raw ++ ("#hashed").data

/-! ## Helper lemmas -/

/-- Integer-level round-half-even agrees with the `ℚ`-level one. -/
lemma rheDiv_eq_rheQ (a b : ℤ) (hb : 0 < b) : rheDiv a b = rheQ ((a : ℚ) / b) := by
  have hbQ : (0 : ℚ) < (b : ℚ) := by exact_mod_cast hb
  have hbne : (b : ℚ) ≠ 0 := ne_of_gt hbQ
  have hdiv : b * (a / b) + a % b = a := Int.ediv_add_emod a b
  have hdivQ : (b : ℚ) * ((a / b : ℤ) : ℚ) + ((a % b : ℤ) : ℚ) = (a : ℚ) := by
    exact_mod_cast congrArg (fun z : ℤ => (z : ℚ)) hdiv
  have hr0 : (0 : ℤ) ≤ a % b := Int.emod_nonneg a (ne_of_gt hb)
  have hrb : a % b < b := Int.emod_lt_of_pos a hb
  have hx : (a : ℚ) / b = ((a / b : ℤ) : ℚ) + ((a % b : ℤ) : ℚ) / b := by
    field_simp
    linarith [hdivQ]
  have hr0Q : (0 : ℚ) ≤ ((a % b : ℤ) : ℚ) / b :=
    div_nonneg (by exact_mod_cast hr0) (le_of_lt hbQ)
  have hrbQ : ((a % b : ℤ) : ℚ) / b < 1 := by
    rw [div_lt_one hbQ]; exact_mod_cast hrb
  have hfloor : ⌊(a : ℚ) / b⌋ = a / b := by
    rw [hx, Int.floor_eq_iff]
    constructor
    · linarith
    · linarith
  have hfract : (a : ℚ) / b - (⌊(a : ℚ) / b⌋ : ℚ) = ((a % b : ℤ) : ℚ) / b := by
    rw [hfloor, hx]; ring
  have h1 : (((a % b : ℤ) : ℚ) / b < 1 / 2) ↔ (2 * (a % b) < b) := by
    rw [div_lt_div_iff₀ hbQ (by norm_num : (0 : ℚ) < 2)]
    constructor
    · intro h
      have h' : ((a % b) * 2 : ℤ) < (1 * b : ℤ) := by exact_mod_cast h
      omega
    · intro h
      have h' : ((a % b) * 2 : ℤ) < (1 * b : ℤ) := by omega
      exact_mod_cast h'
  have h2 : ((1 : ℚ) / 2 < ((a % b : ℤ) : ℚ) / b) ↔ (b < 2 * (a % b)) := by
    rw [div_lt_div_iff₀ (by norm_num : (0 : ℚ) < 2) hbQ]
    constructor
    · intro h
      have h' : (1 * b : ℤ) < ((a % b) * 2 : ℤ) := by exact_mod_cast h
      omega
    · intro h
      have h' : (1 * b : ℤ) < ((a % b) * 2 : ℤ) := by omega
      exact_mod_cast h'
  unfold rheDiv rheQ
  rw [hfract, hfloor]
  by_cases hc1 : 2 * (a % b) < b
  · rw [if_pos hc1, if_pos (h1.mpr hc1)]
  · rw [if_neg hc1, if_neg (fun hq => hc1 (h1.mp hq))]
    by_cases hc2 : b < 2 * (a % b)
    · rw [if_pos hc2, if_pos (h2.mpr hc2)]
    · rw [if_neg hc2, if_neg (fun hq => hc2 (h2.mp hq))]

/-- The stored hundredths-of-an-hour value is exactly the
specification-level `round((minutes)/60, 2)`. -/
lemma round2c_eq_round2q (k : ℤ) :
    ((round2c k : ℤ) : ℚ) / 100 = round2q ((k : ℚ) / 60) := by
  unfold round2c round2q
  rw [rheDiv_eq_rheQ (100 * k) 60 (by norm_num)]
  have harg : ((100 * k : ℤ) : ℚ) / ((60 : ℤ) : ℚ) = 100 * ((k : ℚ) / 60) := by
    push_cast; ring
  rw [harg]

lemma insertHour_length (h : Hour) (l : List Hour) :
    (insertHour h l).length = l.length + 1 := by
  induction l with
  | nil => rfl
  | cons x xs ih =>
    unfold insertHour
    by_cases hc : hourLeB h x = true
    · simp [hc]
    · simp [hc, ih]

lemma sortHours_length (l : List Hour) : (sortHours l).length = l.length := by
  induction l with
  | nil => rfl
  | cons x xs ih =>
    unfold sortHours
    rw [insertHour_length, ih, List.length_cons]

end PontoApp

namespace PontoApp

/-! ## Claim theorems -/

/-- C5: a login with correct credentials moves the session from anonymous to
authenticated; a login with a wrong password leaves the session anonymous,
and its user-visible outcome is identical to the outcome of a login for a
username that does not exist at all. -/
theorem login_transitions_and_username_privacy :
    (∀ (chk : Str → Str → Bool) (s : Store) (un pw : Str) (u : UserRec),
       s.users.find? (fun v => v.username == pyStrip un) = some u →
       chk u.password_hash pw = true →
       login chk s un pw =
         { response := .redirectDashboard, sessionUser := some u.id })
  ∧ (∀ (chk : Str → Str → Bool) (s : Store) (un pw : Str) (u : UserRec),
       s.users.find? (fun v => v.username == pyStrip un) = some u →
       chk u.password_hash pw = false →
       login chk s un pw =
         { response := .loginPageWithFlash ("Invalid credentials").data,
           sessionUser := none })
  ∧ (∀ (chk1 chk2 : Str → Str → Bool) (s1 s2 : Store)
       (un1 un2 pw1 pw2 : Str) (u : UserRec),
       s1.users.find? (fun v => v.username == pyStrip un1) = some u →
       chk1 u.password_hash pw1 = false →
       s2.users.find? (fun v => v.username == pyStrip un2) = none →
       login chk1 s1 un1 pw1 = login chk2 s2 un2 pw2) := by
  refine ⟨?_, ?_, ?_⟩
  · intro chk s un pw u hf hc
    simp [login, hf, hc]
  · intro chk s un pw u hf hc
    simp [login, hf, hc]
  · intro chk1 chk2 s1 s2 un1 un2 pw1 pw2 u hf1 hc1 hf2
    simp [login, hf1, hc1, hf2]

/-- C5 witness: concrete successful and failed logins against a one-user
store, the failed one indistinguishable from a login on an empty store. -/
theorem login_transitions_and_username_privacy_witness :
    login demoCheck adminStore (("admin").data) (("secret").data) =
      { response := .redirectDashboard, sessionUser := some 1 }
    ∧ login demoCheck adminStore (("admin").data) (("wrong").data) =
        login demoCheck emptyStore (("ghost").data) (("wrong").data) :=
  ⟨login_transitions_and_username_privacy.1 demoCheck adminStore
      (("admin").data) (("secret").data)
      { id := 1, username := ("admin").data,
        password_hash := ("secret#hashed").data, role := ("supervisor").data }
      (by decide) (by decide),
   login_transitions_and_username_privacy.2.2 demoCheck demoCheck adminStore
      emptyStore (("admin").data) (("ghost").data) (("wrong").data)
      (("wrong").data)
      { id := 1, username := ("admin").data,
        password_hash := ("secret#hashed").data, role := ("supervisor").data }
      (by decide) (by decide) (by decide)⟩

/-- C9: every mutating dashboard request that fails — for any reason and in
any branch — leaves the persistence store exactly as it was: the handler
commits a fully validated insert or rolls the transaction back. -/
theorem failed_mutation_leaves_store_unchanged (s : Store) (form : Form)
    (msg : Str) (h : (handlePost s form).snd = some msg) :
    (handlePost s form).fst = s := by
  unfold handlePost at h ⊢
  cases hres : dashboardPost s form with
  | ok s2 => rw [hres] at h; simp at h
  | error e => rfl

/-- C9 witness: a form without any `kind` field fails and leaves the empty
store empty. -/
theorem failed_mutation_leaves_store_unchanged_witness :
    (handlePost emptyStore []).snd = some (("Unknown form submission").data)
    ∧ (handlePost emptyStore []).fst = emptyStore :=
  ⟨by decide,
   failed_mutation_leaves_store_unchanged emptyStore []
     (("Unknown form submission").data) (by decide)⟩

/-- C10: the CSV row built for a time entry whose person, team or project
reference resolves to no record substitutes the raw integer identifier for
the missing label, and the export emits exactly one body row per stored
entry — a dangling reference never drops a row. -/
theorem export_row_dangling_reference_fallback (s : Store) (h : Hour) :
    (s.people.find? (fun p => p.id == h.person_id) = none →
       hourRow s h =
         [ h.date, intToStr h.person_id, resolveTeamCode s h.team_id,
           resolveProjectNumber s h.project_id, h.entry, h.exit,
           format2 h.worked_hours ])
  ∧ (s.teams.find? (fun t => t.id == h.team_id) = none →
       hourRow s h =
         [ h.date, resolvePersonName s h.person_id, intToStr h.team_id,
           resolveProjectNumber s h.project_id, h.entry, h.exit,
           format2 h.worked_hours ])
  ∧ (s.projects.find? (fun p => p.id == h.project_id) = none →
       hourRow s h =
         [ h.date, resolvePersonName s h.person_id, resolveTeamCode s h.team_id,
           intToStr h.project_id, h.entry, h.exit, format2 h.worked_hours ])
  ∧ (export_rows s).length = s.hours.length + 1 := by
  refine ⟨?_, ?_, ?_, ?_⟩
  · intro hn; simp [hourRow, resolvePersonName, hn]
  · intro hn; simp [hourRow, resolveTeamCode, hn]
  · intro hn; simp [hourRow, resolveProjectNumber, hn]
  · simp [export_rows, sortHours_length]

/-- C10 witness: the row for an entry with dangling ids 99/88/77 carries the
raw identifiers, and the export of that store has a header plus one row. -/
theorem export_row_dangling_reference_fallback_witness :
    hourRow danglingStore danglingHour =
      [ danglingHour.date, intToStr danglingHour.person_id,
        resolveTeamCode danglingStore danglingHour.team_id,
        resolveProjectNumber danglingStore danglingHour.project_id,
        danglingHour.entry, danglingHour.exit,
        format2 danglingHour.worked_hours ]
    ∧ (export_rows danglingStore).length = danglingStore.hours.length + 1 :=
  ⟨(export_row_dangling_reference_fallback danglingStore danglingHour).1
     (by decide),
   (export_row_dangling_reference_fallback danglingStore danglingHour).2.2.2⟩

/-- C3: on the specification's round-trip scenario the modelled export
produces the fixed header and one row per entry, date-ascending, with
references resolved to name/code/number and hours formatted to two decimal
places.  (The deployed code never reaches this output: `export_csv` hands a
`BytesIO` to `csv.writer`, whose first `writerow` raises `TypeError`.) -/
theorem export_csv_content_scenario :
    export_rows scenarioStore =
      [ exportHeader,
        [ ("2024-01-01").data, ("Ana").data, ("T1").data, ("12345").data,
          ("09:00").data, ("12:30").data, ("3.50").data ],
        [ ("2024-01-02").data, ("Ana").data, ("T1").data, ("12345").data,
          ("08:00").data, ("17:00").data, ("9.00").data ] ] := by
  decide

/-- C6 counterexample: a project-creation request with an in-range number
but an empty client and a whitespace-only description is accepted and
persisted, not rejected. -/
theorem project_empty_fields_accepted :
    (handlePost emptyStore projEmptyClientForm).snd = none
    ∧ (handlePost emptyStore projEmptyClientForm).fst.projects =
        [{ id := 1, number := 12345, client := [], description := [] }] := by
  decide

/-- C7 counterexample: a person-creation request with classification
`Gerente` — not one of the two enum values — is accepted and persisted with
that classification, not rejected. -/
theorem person_classification_unchecked :
    (handlePost emptyStore personOddClassForm).snd = none
    ∧ (handlePost emptyStore personOddClassForm).fst.people =
        [{ id := 1, name := ("Ana").data,
           classification := ("Gerente").data }] := by
  decide

/-- C8 counterexample: a time-entry request whose date is not a calendar
date and whose times are outside the 24-hour clock (`25:61`, `99:99`) is
accepted and persisted, not rejected. -/
theorem time_entry_unvalidated_inputs_accepted :
    (handlePost emptyStore hourBadFieldsForm).snd = none
    ∧ (handlePost emptyStore hourBadFieldsForm).fst.hours.map
        (fun h => h.date) = [("not-a-date").data]
    ∧ (handlePost emptyStore hourBadFieldsForm).fst.hours.map
        (fun h => h.entry) = [("25:61").data]
    ∧ validHHMM ("25:61").data = false := by
  decide

end PontoApp

namespace PontoApp

lemma createPerson_ok_projects (s : Store) (form : Form) (s2 : Store)
    (h : createPerson s form = .ok s2) : s2.projects = s.projects := by
  unfold createPerson at h
  split at h
  · split at h
    · cases h
    · injection h with h2; subst h2; rfl
  · cases h

lemma createTeam_ok_projects (s : Store) (form : Form) (s2 : Store)
    (h : createTeam s form = .ok s2) : s2.projects = s.projects := by
  unfold createTeam at h
  split at h
  · split at h
    · cases h
    · injection h with h2; subst h2; rfl
  · cases h

lemma createHour_ok_projects (s : Store) (form : Form) (s2 : Store)
    (h : createHour s form = .ok s2) : s2.projects = s.projects := by
  unfold createHour at h
  split at h
  · split at h
    · split at h
      · split at h
        · cases h
        · injection h with h2; subst h2; rfl
      · cases h
    · cases h
  · cases h

lemma createProject_ok_projects (s : Store) (form : Form) (s2 : Store)
    (h : createProject s form = .ok s2) :
    ∃ P : Project, s2.projects = s.projects ++ [P] ∧
      s.projects.any (fun p => p.number == P.number) = false := by
  unfold createProject at h
  split at h
  · split at h
    · split at h
      · cases h
      · split at h
        · split at h
          · cases h
          · next hcond =>
            injection h with h2; subst h2
            refine ⟨_, rfl, ?_⟩
            simpa using hcond
        · cases h
    · cases h
  · cases h

lemma dashboardPost_ok_preserves_unique (s : Store) (form : Form) (s2 : Store)
    (h : dashboardPost s form = .ok s2) (hnd : projectNumbersUnique s) :
    projectNumbersUnique s2 := by
  unfold dashboardPost at h
  split at h
  · split at h
    · have hpp := createPerson_ok_projects _ _ _ h
      unfold projectNumbersUnique at hnd ⊢
      rw [hpp]; exact hnd
    · split at h
      · have hpp := createTeam_ok_projects _ _ _ h
        unfold projectNumbersUnique at hnd ⊢
        rw [hpp]; exact hnd
      · split at h
        · obtain ⟨P, hP, hany⟩ := createProject_ok_projects _ _ _ h
          unfold projectNumbersUnique at hnd ⊢
          rw [hP, List.map_append]
          refine List.Nodup.append hnd (List.nodup_singleton _) ?_
          intro x hx hx2
          simp only [List.map_cons, List.map_nil, List.mem_singleton] at hx2
          subst hx2
          rw [List.mem_map] at hx
          obtain ⟨p, hp, hpn⟩ := hx
          have hT : s.projects.any (fun q => q.number == P.number) = true :=
            List.any_eq_true.mpr ⟨p, hp, by simp [hpn]⟩
          rw [hT] at hany; cases hany
        · split at h
          · have hpp := createHour_ok_projects _ _ _ h
            unfold projectNumbersUnique at hnd ⊢
            rw [hpp]; exact hnd
          · cases h
  · cases h

/-- C4: project-number uniqueness is an invariant preserved by every
dashboard request, and of two creation requests with the same in-range
number the second fails with the uniqueness error, leaving exactly one
project with that number in the store. -/
theorem project_number_uniqueness :
    (∀ (s : Store) (form : Form),
       projectNumbersUnique s → projectNumbersUnique (handlePost s form).fst)
  ∧ (∀ (s : Store) (form1 form2 : Form) (nS1 nS2 c1 d1 c2 d2 : Str) (n : Int),
       getf form1 (("kind").data) = some (("project").data) →
       getf form1 (("number").data) = some nS1 → pyInt? nS1 = some n →
       getf form1 (("client").data) = some c1 →
       getf form1 (("desc").data) = some d1 →
       getf form2 (("kind").data) = some (("project").data) →
       getf form2 (("number").data) = some nS2 → pyInt? nS2 = some n →
       getf form2 (("client").data) = some c2 →
       getf form2 (("desc").data) = some d2 →
       ¬(n < 10000 ∨ 99999 < n) →
       n ∉ s.projects.map (fun p => p.number) →
       (handlePost s form1).snd = none
       ∧ handlePost (handlePost s form1).fst form2 =
           ((handlePost s form1).fst,
            some (("UNIQUE constraint failed: project.number").data))
       ∧ ((handlePost s form1).fst.projects.filter
            (fun p => p.number == n)).length = 1) := by
  constructor
  · intro s form hnd
    unfold handlePost
    cases hres : dashboardPost s form with
    | ok s2 => exact dashboardPost_ok_preserves_unique s form s2 hres hnd
    | error e => exact hnd
  · intro s form1 form2 nS1 nS2 c1 d1 c2 d2 n hk1 hn1 hi1 hc1 hd1 hk2 hn2
      hi2 hc2 hd2 hr hnm
    have hany : s.projects.any (fun p => p.number == n) = false := by
      by_contra hcon
      rw [Bool.not_eq_false, List.any_eq_true] at hcon
      obtain ⟨p, hp, hpn⟩ := hcon
      rw [beq_iff_eq] at hpn
      exact hnm (hpn ▸ List.mem_map_of_mem (fun p => p.number) hp)
    have h1 : handlePost s form1 =
        ({ s with projects := s.projects ++
           [{ id := (s.projects.length : Int) + 1, number := n,
              client := pyStrip c1, description := pyStrip d1 }] }, none) := by
      simp [handlePost, dashboardPost, createProject, hk1, hn1, hi1, hc1, hd1,
        hr, hany]
    have hany2 : (s.projects ++
        [({ id := (s.projects.length : Int) + 1, number := n,
            client := pyStrip c1, description := pyStrip d1 } : Project)]).any
          (fun p => p.number == n) = true := by
      rw [List.any_eq_true]
      exact ⟨{ id := (s.projects.length : Int) + 1, number := n,
               client := pyStrip c1, description := pyStrip d1 },
             List.mem_append_right _ (List.mem_singleton_self _), by simp⟩
    have hfil : s.projects.filter (fun p => p.number == n) = [] := by
      rw [List.filter_eq_nil_iff]
      intro p hp
      simp only [beq_iff_eq]
      intro hpn
      exact hnm (hpn ▸ List.mem_map_of_mem (fun p => p.number) hp)
    refine ⟨by rw [h1], ?_, ?_⟩
    · rw [h1]
      simp [handlePost, dashboardPost, createProject, hk2, hn2, hi2, hc2, hd2,
        hr, hany2]
    · rw [h1]
      simp [List.filter_append, hfil]

end PontoApp

namespace PontoApp

/-- C4 witness: creating project 12345 twice on an empty store — the second
attempt fails with the uniqueness error and exactly one project with number
12345 remains; the resulting store satisfies the uniqueness invariant. -/
theorem project_number_uniqueness_witness :
    projectNumbersUnique (handlePost emptyStore projOkForm).fst
    ∧ (handlePost emptyStore projOkForm).snd = none
    ∧ handlePost (handlePost emptyStore projOkForm).fst projDupForm =
        ((handlePost emptyStore projOkForm).fst,
         some (("UNIQUE constraint failed: project.number").data))
    ∧ ((handlePost emptyStore projOkForm).fst.projects.filter
         (fun p => p.number == 12345)).length = 1 := by
  have H := project_number_uniqueness.2 emptyStore projOkForm projDupForm
    (("12345").data) (("12345").data) (("Acme").data) (("Widgets").data)
    (("Other").data) (("Again").data) 12345
    (by decide) (by decide) (by decide) (by decide) (by decide)
    (by decide) (by decide) (by decide) (by decide) (by decide)
    (by decide) (by decide)
  exact ⟨project_number_uniqueness.1 emptyStore projOkForm
           (by unfold projectNumbersUnique; decide),
         H.1, H.2.1, H.2.2⟩

/-- C1: a time-entry request whose entry and exit parse as `HH:MM` times
with exit strictly after entry stores exactly one new record whose
worked-duration is `round((exit_minutes - entry_minutes)/60, 2)` — no break
or lunch deduction — and that stored value equals the specification's
rational-level rounding formula. -/
theorem time_entry_worked_duration_formula
    (s : Store) (form : Form) (date pidS tidS prS entryS exitS : Str)
    (pid tid prid start stop : Int)
    (hk : getf form (("kind").data) = some (("hour").data))
    (hd : getf form (("date").data) = some date)
    (hp : getf form (("person_id").data) = some pidS)
    (ht : getf form (("team_id").data) = some tidS)
    (hpr : getf form (("project_id").data) = some prS)
    (hef : getf form (("entry").data) = some entryS)
    (hxf : getf form (("exit").data) = some exitS)
    (hpi : pyInt? pidS = some pid) (hti : pyInt? tidS = some tid)
    (hpri : pyInt? prS = some prid)
    (hme : to_minutes entryS = some start)
    (hmx : to_minutes exitS = some stop)
    (_hv1 : validHHMM entryS = true) (_hv2 : validHHMM exitS = true)
    (hlt : start < stop) :
    handlePost s form =
      ({ s with hours := s.hours ++
         [{ id := (s.hours.length : Int) + 1, date := date,
            person_id := pid, team_id := tid, project_id := prid,
            entry := entryS, exit := exitS,
            worked_hours := round2c (stop - start) }] }, none)
    ∧ ((round2c (stop - start) : ℤ) : ℚ) / 100 =
        round2q (((stop : ℚ) - (start : ℚ)) / 60) := by
  constructor
  · have hns : ¬ stop ≤ start := not_le.mpr hlt
    simp [handlePost, dashboardPost, createHour, hk, hd, hp, ht, hpr, hef,
      hxf, hpi, hti, hpri, hme, hmx, hns]
  · have h := round2c_eq_round2q (stop - start)
    push_cast at h
    exact h

/-- C1 witness: logging 08:00-16:30 stores one entry of 8.50 hours (850
hundredths), matching the rational rounding of 510 minutes / 60. -/
theorem time_entry_worked_duration_formula_witness :
    handlePost emptyStore hourOkForm =
      ({ emptyStore with hours :=
         [{ id := 1, date := ("2024-03-01").data, person_id := 1, team_id := 1,
            project_id := 1, entry := ("08:00").data, exit := ("16:30").data,
            worked_hours := round2c (990 - 480) }] }, none)
    ∧ ((round2c (990 - 480) : ℤ) : ℚ) / 100 =
        round2q (((990 : ℚ) - (480 : ℚ)) / 60) := by
  exact time_entry_worked_duration_formula emptyStore hourOkForm
    (("2024-03-01").data) (("1").data) (("1").data) (("1").data)
    (("08:00").data) (("16:30").data) 1 1 1 480 990
    (by decide) (by decide) (by decide) (by decide) (by decide) (by decide)
    (by decide) (by decide) (by decide) (by decide) (by decide) (by decide)
    (by decide) (by decide) (by decide)

/-- C2: a time-entry request whose exit time is equal to or earlier than its
entry time (in minutes since midnight) fails with the validation error
`Exit must be after entry` — no wrap to the next day — and the store is left
unchanged: no record is persisted. -/
theorem time_entry_exit_not_after_entry_rejected
    (s : Store) (form : Form) (date pidS tidS prS entryS exitS : Str)
    (pid tid prid start stop : Int)
    (hk : getf form (("kind").data) = some (("hour").data))
    (hd : getf form (("date").data) = some date)
    (hp : getf form (("person_id").data) = some pidS)
    (ht : getf form (("team_id").data) = some tidS)
    (hpr : getf form (("project_id").data) = some prS)
    (hef : getf form (("entry").data) = some entryS)
    (hxf : getf form (("exit").data) = some exitS)
    (hpi : pyInt? pidS = some pid) (hti : pyInt? tidS = some tid)
    (hpri : pyInt? prS = some prid)
    (hme : to_minutes entryS = some start)
    (hmx : to_minutes exitS = some stop)
    (hle : stop ≤ start) :
    handlePost s form = (s, some (("Exit must be after entry").data)) := by
  simp [handlePost, dashboardPost, createHour, hk, hd, hp, ht, hpr, hef,
    hxf, hpi, hti, hpri, hme, hmx, hle]

/-- C2 witness: an entry of 17:00 with an exit of 09:00 is rejected with the
`Exit must be after entry` message and the empty store stays empty. -/
theorem time_entry_exit_not_after_entry_rejected_witness :
    handlePost emptyStore hourBackwardsForm =
      (emptyStore, some (("Exit must be after entry").data)) := by
  exact time_entry_exit_not_after_entry_rejected emptyStore hourBackwardsForm
    (("2024-03-01").data) (("1").data) (("1").data) (("1").data)
    (("17:00").data) (("09:00").data) 1 1 1 1020 540
    (by decide) (by decide) (by decide) (by decide) (by decide) (by decide)
    (by decide) (by decide) (by decide) (by decide) (by decide) (by decide)
    (by decide)

end PontoApp

namespace PontoApp

/-- C6 (amended): a project-creation request is accepted iff its number
parses as an integer in [10000, 99999] that is not already taken; a
non-integer number fails with the raw `int()` parse error, an out-of-range
number fails with `Project number must be 5 digits`, and in both cases
nothing is persisted.  Client and description are stored trimmed, with no
non-emptiness check. -/
theorem project_creation_as_implemented
    (s : Store) (form : Form) (numS clientRaw descRaw : Str)
    (hk : getf form (("kind").data) = some (("project").data))
    (hn : getf form (("number").data) = some numS)
    (hc : getf form (("client").data) = some clientRaw)
    (hd : getf form (("desc").data) = some descRaw) :
    (pyInt? numS = none →
       handlePost s form =
         (s, some (("invalid literal for int() with base 10").data)))
  ∧ (∀ n : Int, pyInt? numS = some n → (n < 10000 ∨ 99999 < n) →
       handlePost s form =
         (s, some (("Project number must be 5 digits").data)))
  ∧ (∀ n : Int, pyInt? numS = some n → ¬(n < 10000 ∨ 99999 < n) →
       n ∉ s.projects.map (fun p => p.number) →
       handlePost s form =
         ({ s with projects := s.projects ++
            [{ id := (s.projects.length : Int) + 1, number := n,
               client := pyStrip clientRaw,
               description := pyStrip descRaw }] }, none)) := by
  refine ⟨?_, ?_, ?_⟩
  · intro hnone
    simp [handlePost, dashboardPost, createProject, hk, hn, hnone]
  · intro n hsome hr
    simp [handlePost, dashboardPost, createProject, hk, hn, hsome, hr]
  · intro n hsome hr hnm
    have hany : s.projects.any (fun p => p.number == n) = false := by
      by_contra hcon
      rw [Bool.not_eq_false, List.any_eq_true] at hcon
      obtain ⟨p, hpmem, hpn⟩ := hcon
      rw [beq_iff_eq] at hpn
      exact hnm (hpn ▸ List.mem_map_of_mem (fun p => p.number) hpmem)
    simp [handlePost, dashboardPost, createProject, hk, hn, hsome, hc, hd,
      hr, hany]

/-- C6 witness: project 12345 with client `Acme` is accepted on an empty
store and stored trimmed. -/
theorem project_creation_as_implemented_witness :
    handlePost emptyStore projOkForm =
      ({ emptyStore with projects :=
         [{ id := 1, number := 12345, client := ("Acme").data,
            description := ("Widgets").data }] }, none) := by
  exact (project_creation_as_implemented emptyStore projOkForm
    (("12345").data) (("Acme").data) (("Widgets").data)
    (by decide) (by decide) (by decide) (by decide)).2.2 12345
    (by decide) (by decide) (by decide)

/-- C7 (amended): a person-creation request is accepted iff its name is
non-empty after trimming (otherwise it fails with `Name required` and
nothing is persisted); the classification is stored trimmed exactly as
submitted, with no check against the {Direct, Indirect} enum. -/
theorem person_creation_as_implemented
    (s : Store) (form : Form) (nameRaw clsRaw : Str)
    (hk : getf form (("kind").data) = some (("person").data))
    (hn : getf form (("name").data) = some nameRaw)
    (hc : getf form (("class").data) = some clsRaw) :
    (pyStrip nameRaw = [] →
       handlePost s form = (s, some (("Name required").data)))
  ∧ (pyStrip nameRaw ≠ [] →
       handlePost s form =
         ({ s with people := s.people ++
            [{ id := (s.people.length : Int) + 1, name := pyStrip nameRaw,
               classification := pyStrip clsRaw }] }, none)) := by
  constructor
  · intro hempty
    simp [handlePost, dashboardPost, createPerson, hk, hn, hc, hempty]
  · intro hne
    simp [handlePost, dashboardPost, createPerson, hk, hn, hc, hne]

/-- C7 witness: name `Ana` with classification `Direto` is accepted as-is. -/
theorem person_creation_as_implemented_witness :
    handlePost emptyStore personOkForm =
      ({ emptyStore with people :=
         [{ id := 1, name := ("Ana").data,
            classification := ("Direto").data }] }, none) := by
  exact (person_creation_as_implemented emptyStore personOkForm
    (("Ana").data) (("Direto").data)
    (by decide) (by decide) (by decide)).2 (by decide)

/-- C8 (amended): the date string of a time-entry request is stored exactly
as submitted, with no calendar validation; the entry and exit fields are
accepted iff splitting on `:` yields exactly two integer-parseable fields
(sign allowed, no 0-23 / 0-59 range check).  A time field failing that
parse is rejected — the store is unchanged — while any date string together
with parseable, increasing times is accepted and persisted. -/
theorem time_entry_parsing_as_implemented
    (s : Store) (form : Form) (date pidS tidS prS entryS exitS : Str)
    (pid tid prid : Int)
    (hk : getf form (("kind").data) = some (("hour").data))
    (hd : getf form (("date").data) = some date)
    (hp : getf form (("person_id").data) = some pidS)
    (ht : getf form (("team_id").data) = some tidS)
    (hpr : getf form (("project_id").data) = some prS)
    (hef : getf form (("entry").data) = some entryS)
    (hxf : getf form (("exit").data) = some exitS)
    (hpi : pyInt? pidS = some pid) (hti : pyInt? tidS = some tid)
    (hpri : pyInt? prS = some prid) :
    (to_minutes entryS = none →
       handlePost s form =
         (s, some (("invalid literal in time field").data)))
  ∧ (to_minutes exitS = none →
       handlePost s form =
         (s, some (("invalid literal in time field").data)))
  ∧ (∀ start stop : Int, to_minutes entryS = some start →
       to_minutes exitS = some stop → start < stop →
       handlePost s form =
         ({ s with hours := s.hours ++
            [{ id := (s.hours.length : Int) + 1, date := date,
               person_id := pid, team_id := tid, project_id := prid,
               entry := entryS, exit := exitS,
               worked_hours := round2c (stop - start) }] }, none)) := by
  refine ⟨?_, ?_, ?_⟩
  · intro hnone
    cases hmx : to_minutes exitS <;>
      simp [handlePost, dashboardPost, createHour, hk, hd, hp, ht, hpr, hef,
        hxf, hpi, hti, hpri, hnone, hmx]
  · intro hnone
    cases hme : to_minutes entryS <;>
      simp [handlePost, dashboardPost, createHour, hk, hd, hp, ht, hpr, hef,
        hxf, hpi, hti, hpri, hnone, hme]
  · intro start stop hme hmx hlt
    have hns : ¬ stop ≤ start := not_le.mpr hlt
    simp [handlePost, dashboardPost, createHour, hk, hd, hp, ht, hpr, hef,
      hxf, hpi, hti, hpri, hme, hmx, hns]

/-- C8 witness: an entry time `0800` without a `:` separator is rejected and
the empty store stays empty. -/
theorem time_entry_parsing_as_implemented_witness :
    handlePost emptyStore hourNoColonForm =
      (emptyStore, some (("invalid literal in time field").data)) := by
  exact (time_entry_parsing_as_implemented emptyStore hourNoColonForm
    (("2024-03-01").data) (("1").data) (("1").data) (("1").data)
    (("0800").data) (("17:00").data) 1 1 1
    (by decide) (by decide) (by decide) (by decide) (by decide) (by decide)
    (by decide) (by decide) (by decide) (by decide)).1 (by decide)

end PontoApp
